import Mathlib

/-!
# Conditional visibility of prompt groups (`internal/parameter/group.go`)

A shallow embedding of `Group`, `DependsOn` and `Condition` with their methods
`Validate`, `Render`, `Match`, `Equal`, `NotEqual`, `Contains`, `NotContains`
and `IsEmpty`.

Conventions of the embedding:

* a Go interface value (`interface{}`, `huh.Field`) is an `Option`: `none` is
  the nil interface;
* a Go `*bool` is an `Option Bool`: `none` is the nil pointer;
* a Go `map[FieldKey]huh.Field` is an `Option (K → Option (HuhField F))`:
  the outer `none` is the nil map, on which every read misses;
* a Go slice is a `List`; `len` is `List.length`; the counters of the hide
  function are bounded by slice lengths, so `Nat` is exact;
* the functions of `internal/helpers` and `GetFiledKey`, which `group.go` calls
  but does not define, are the fields of the parameter `Externals`;
* the library function `strutil.IsEmpty` is written out with `strings.TrimSpace`
  and `unicode.IsSpace`: a string of white space counts as empty.
-/

namespace Commitizen

/-- A `huh.Field` interface value; `none` is the nil interface. -/
abbrev HuhField (F : Type) := Option F

/-- A `map[FieldKey]huh.Field`; `none` is the nil map. -/
abbrev FieldMap (K F : Type) := Option (K → Option (HuhField F))

/-- The one-result map read `m[k]`: the stored value, or the zero value (the nil
interface) when the map is nil or the key is absent. -/
def FieldMap.index {K F : Type} (m : FieldMap K F) (k : K) : HuhField F :=
  match m with
  | none => none
  | some f =>
    match f k with
    | none => none
    | some v => v

/-- The two-result map read `v, ok := m[k]`. -/
def FieldMap.commaOk {K F : Type} (m : FieldMap K F) (k : K) : HuhField F × Bool :=
  match m with
  | none => (none, false)
  | some f =>
    match f k with
    | none => (none, false)
    | some v => (v, true)

/-- The functions `group.go` calls and does not define: `GetFiledKey` of package
`parameter` and the comparison functions of `internal/helpers`, with the argument
order of their call sites. -/
structure Externals (K F V : Type) where
  GetFiledKey : String → K
  Equal : Option V → HuhField F → Bool
  NotEqual : Option V → HuhField F → Bool
  Contains : HuhField F → Option V → Bool
  NotContains : HuhField F → Option V → Bool
  Empty : HuhField F → Bool
  NotEmpty : HuhField F → Bool

/-- The library predicate `unicode.IsSpace`: the white space characters of
Unicode, by code point. -/
def unicode.IsSpace (r : Char) : Bool :=
  let n := r.toNat
  n == 0x09 || n == 0x0A || n == 0x0B || n == 0x0C || n == 0x0D || n == 0x20 ||
    n == 0x85 || n == 0xA0 || n == 0x1680 || (0x2000 ≤ n && n ≤ 0x200A) ||
    n == 0x2028 || n == 0x2029 || n == 0x202F || n == 0x205F || n == 0x3000

/-- The library function `strings.TrimSpace`: the string without its leading and
trailing white space. -/
def strings.TrimSpace (s : String) : String :=
  String.mk ((s.data.dropWhile unicode.IsSpace).reverse.dropWhile unicode.IsSpace).reverse

/-- The library function `strutil.IsEmpty`: nothing is left of the string once
white space is trimmed, so a blank string counts as empty. -/
def strutil.IsEmpty (s : String) : Bool :=
  (strings.TrimSpace s).length == 0

/-- Error values: `standarderrs.New msg` and `errors.NewMissingErr field parent`. -/
inductive Error where
  | New (msg : String)
  | NewMissingErr (field : String) (parent : String)
  deriving DecidableEq, Repr

/-- The struct `Condition`: the unexported map `fields` and the six configured
members. -/
structure Condition (K F V : Type) where
  fields : FieldMap K F
  ParameterName : String
  ValueEmpty : Option Bool
  ValueEquals : Option V
  ValueNotEquals : Option V
  ValueContains : Option V
  ValueNotContains : Option V

/-- The struct `DependsOn`. -/
structure DependsOn (K F V : Type) where
  AndConditions : List (Condition K F V)
  OrConditions : List (Condition K F V)

/-- The struct `Group`. -/
structure Group (K F V : Type) where
  Name : String
  DependsOn : DependsOn K F V

/-- What this package uses of `huh.Group`: the fields handed to `huh.NewGroup`
and the function set by `WithHideFunc`. -/
structure HuhGroup (F : Type) where
  fields : List (HuhField F)
  hideFunc : Unit → Bool

/-- The library constructor `huh.NewGroup(fields...)`; a new group is not hidden. -/
def HuhGroup.NewGroup {F : Type} (fields : List (HuhField F)) : HuhGroup F :=
  { fields := fields, hideFunc := fun _ => false }

/-- The library method `WithHideFunc`. -/
def HuhGroup.WithHideFunc {F : Type} (hg : HuhGroup F) (f : Unit → Bool) : HuhGroup F :=
  { hg with hideFunc := f }

section Code

variable {K F V : Type}

/-- The constructor `NewGroup(name)`: `&Group{Name: name}`, the other members zero. -/
def NewGroup (name : String) : Group K F V :=
  { Name := name, DependsOn := { AndConditions := [], OrConditions := [] } }

/-- The method `Condition.Validate`. -/
def Condition.Validate (c : Condition K F V) : List Error :=
  let errs : List Error := []
  let errs :=
    if strutil.IsEmpty c.ParameterName then
      errs ++ [Error.NewMissingErr "parameter_name" "condition"]
    else errs
  let errs :=
    if c.ValueEmpty.isNone && c.ValueEquals.isNone && c.ValueNotEquals.isNone &&
        c.ValueNotContains.isNone && c.ValueContains.isNone then
      errs ++ [Error.New "missing a valid condition"]
    else errs
  errs

/-- The method `Group.Validate`: the two `range` loops append to the running slice. -/
def Group.Validate (g : Group K F V) : List Error :=
  let errs : List Error := []
  let errs :=
    if strutil.IsEmpty g.Name then
      errs ++ [Error.New "the group missing required field: name"]
    else errs
  let errs := g.DependsOn.OrConditions.foldl (fun errs v => errs ++ v.Validate) errs
  let errs := g.DependsOn.AndConditions.foldl (fun errs v => errs ++ v.Validate) errs
  errs

/-- The method `Condition.Equal`. -/
def Condition.Equal (x : Externals K F V) (c : Condition K F V) : Bool :=
  let val := c.fields.index (x.GetFiledKey c.ParameterName)
  x.Equal c.ValueEquals val

/-- The method `Condition.NotEqual`. -/
def Condition.NotEqual (x : Externals K F V) (c : Condition K F V) : Bool :=
  let val := c.fields.index (x.GetFiledKey c.ParameterName)
  x.NotEqual c.ValueNotEquals val

/-- The method `Condition.Contains`. -/
def Condition.Contains (x : Externals K F V) (c : Condition K F V) : Bool :=
  let val := c.fields.index (x.GetFiledKey c.ParameterName)
  x.Contains val c.ValueContains

/-- The method `Condition.NotContains`. -/
def Condition.NotContains (x : Externals K F V) (c : Condition K F V) : Bool :=
  let val := c.fields.index (x.GetFiledKey c.ParameterName)
  x.NotContains val c.ValueNotContains

/-- The method `Condition.IsEmpty`. -/
def Condition.IsEmpty (x : Externals K F V) (c : Condition K F V) (empty : Bool) : Bool :=
  let (val, ok) := c.fields.commaOk (x.GetFiledKey c.ParameterName)
  if !ok then false
  else if empty && x.Empty val then true
  else if !empty && x.NotEmpty val then true
  else false

/-- The method `Condition.Match`. -/
def Condition.Match (x : Externals K F V) (c : Condition K F V) : Bool :=
  match c.ValueEmpty with
  | some b => c.IsEmpty x b
  | none =>
    if c.ValueEquals.isSome then c.Equal x
    else if c.ValueNotEquals.isSome then c.NotEqual x
    else if c.ValueContains.isSome then c.Contains x
    else if c.ValueNotContains.isSome then c.NotContains x
    else false

/-- The loop `for _, v := range cs { v.fields = all }` as a fold whose state is
the slice. `v` is the iteration variable, a copy of the element (`cs` is a
`[]Condition`); the assignment writes the copy, and no statement of the body
writes the slice, so every step hands the slice on as it found it. -/
def wireRange (cs : List (Condition K F V)) (all : FieldMap K F) : List (Condition K F V) :=
  cs.foldl
    (fun slice v =>
      let v : Condition K F V := { v with fields := all }
      let _ := v
      slice)
    cs

/-- The first loop of the hide function: `orMet`, set at the first matching
condition, where the loop breaks. -/
def orMetScan (x : Externals K F V) : List (Condition K F V) → Bool
  | [] => false
  | condition :: rest => if condition.Match x then true else orMetScan x rest

/-- The second loop of the hide function: `andMetCount`, starting from `n`. -/
def andMetCountScan (x : Externals K F V) (cs : List (Condition K F V)) (n : Nat) : Nat :=
  cs.foldl (fun andMetCount condition =>
    if condition.Match x then andMetCount + 1 else andMetCount) n

/-- The closure handed to `WithHideFunc`, reading the group `g` it captures. -/
def hideDecision (x : Externals K F V) (g : Group K F V) : Bool :=
  let orCount := g.DependsOn.OrConditions.length
  let andCount := g.DependsOn.AndConditions.length
  if orCount < 1 && andCount < 1 then false
  else
    let orMet := orMetScan x g.DependsOn.OrConditions
    let andMetCount := andMetCountScan x g.DependsOn.AndConditions 0
    if orCount > 0 && andCount < 1 then orMet
    else if orCount < 1 && andCount > 0 then andCount == andMetCount
    else if orCount > 0 && andCount > 0 then orMet && (andMetCount == orCount)
    else false

/-- The method `Group.Render`: the group as the two wiring loops leave it, and the
`huh.Group` built over `fields` whose hide function reads that group. -/
def Group.Render (x : Externals K F V) (g : Group K F V) (all : FieldMap K F)
    (fields : List (HuhField F)) : Group K F V × HuhGroup F :=
  let g : Group K F V :=
    { g with DependsOn := { g.DependsOn with OrConditions := wireRange g.DependsOn.OrConditions all } }
  let g : Group K F V :=
    { g with DependsOn := { g.DependsOn with AndConditions := wireRange g.DependsOn.AndConditions all } }
  let group := HuhGroup.NewGroup fields
  let group := group.WithHideFunc (fun _ => hideDecision x g)
  (g, group)

end Code

/-- Whether a key is registered in a map, and with which value: `none` when the
map is nil or the key is absent. This is the notion "the field exists in the
Field Value Source" of the statements about `IsEmpty`. -/
def FieldMap.find? {K F : Type} (m : FieldMap K F) (k : K) : Option (HuhField F) :=
  match m with
  | none => none
  | some f => f k

/-- Whether at least one of the five predicate members of a condition is set. -/
def Condition.hasPredicate {K F V : Type} (c : Condition K F V) : Bool :=
  c.ValueEmpty.isSome || c.ValueEquals.isSome || c.ValueNotEquals.isSome ||
    c.ValueContains.isSome || c.ValueNotContains.isSome

/-! ## Concrete data

String-valued fields keyed by their name, with one instance of the external
functions, and the groups the closed statements below are evaluated on. -/

namespace Sample

/-- An instance of the external functions over string-valued fields: the key of
a field is its name, a field is empty when it is nil or holds the empty string. -/
def ext : Externals String String String where
  GetFiledKey := fun name => name
  Equal := fun v val => v == val
  NotEqual := fun v val => !(v == val)
  Contains := fun val v => v == val
  NotContains := fun val v => !(v == val)
  Empty := fun val => val.all (fun s => s.length == 0)
  NotEmpty := fun val => val.any (fun s => s.length != 0)

/-- A field value source holding the field `scope` with the empty value and the
field `type` with the value `feat`. -/
def source : FieldMap String String :=
  some (fun k => if k = "scope" then some (some "") else if k = "type" then some (some "feat") else none)

/-- A condition with only `parameter_name` and `value_empty` configured and no map
attached, as decoding a configuration leaves it. -/
def emptyCond (name : String) (empty : Bool) : Condition String String String :=
  { fields := none, ParameterName := name, ValueEmpty := some empty, ValueEquals := none,
    ValueNotEquals := none, ValueContains := none, ValueNotContains := none }

/-- The same condition with the map `source` attached. -/
def wiredCond (name : String) (empty : Bool) : Condition String String String :=
  { emptyCond name empty with fields := source }

/-- A condition with nothing configured. -/
def blankCond : Condition String String String :=
  { fields := none, ParameterName := "", ValueEmpty := none, ValueEquals := none,
    ValueNotEquals := none, ValueContains := none, ValueNotContains := none }

/-- A group with the given buckets. -/
def mkGroup (name : String) (ors ands : List (Condition String String String)) :
    Group String String String :=
  { Name := name, DependsOn := { AndConditions := ands, OrConditions := ors } }

end Sample

/-! ## The return statements of `Match` -/

/-- The five predicate members of a condition, in the order `Match` tests them. -/
inductive Slot where
  | valueEmpty
  | valueEquals
  | valueNotEquals
  | valueContains
  | valueNotContains
  deriving DecidableEq, Repr

/-- The `return` statement that `Condition.Match` reaches, by the tests of its
body in their order: the member whose test `!= nil` succeeds first, or `none` for
the closing `return false`. -/
def Condition.matchReturn {K F V : Type} (c : Condition K F V) : Option Slot :=
  if c.ValueEmpty.isSome then some Slot.valueEmpty
  else if c.ValueEquals.isSome then some Slot.valueEquals
  else if c.ValueNotEquals.isSome then some Slot.valueNotEquals
  else if c.ValueContains.isSome then some Slot.valueContains
  else if c.ValueNotContains.isSome then some Slot.valueNotContains
  else none

/-- The predicate method that belongs to a member: `IsEmpty(*c.ValueEmpty)`,
`Equal()`, `NotEqual()`, `Contains()`, `NotContains()`. For `value_empty` the
pointer is read only where it is set. -/
def Condition.predicate {K F V : Type} (x : Externals K F V) (c : Condition K F V) :
    Slot → Bool
  | Slot.valueEmpty =>
    match c.ValueEmpty with
    | some b => c.IsEmpty x b
    | none => false
  | Slot.valueEquals => c.Equal x
  | Slot.valueNotEquals => c.NotEqual x
  | Slot.valueContains => c.Contains x
  | Slot.valueNotContains => c.NotContains x

/-! ## Shared lemmas -/

section Lemmas

variable {K F V : Type}

theorem foldl_keep {α β : Type} (l : List β) (s : α) (f : β → β) :
    l.foldl (fun slice v => let v := f v; let _ := v; slice) s = s := by
  induction l generalizing s with
  | nil => rfl
  | cons b bs ih => exact ih s

theorem wireRange_eq (cs : List (Condition K F V)) (all : FieldMap K F) :
    wireRange cs all = cs := by
  unfold wireRange
  exact foldl_keep cs cs (fun v => { v with fields := all })

theorem Render_group (x : Externals K F V) (g : Group K F V) (all : FieldMap K F)
    (fields : List (HuhField F)) : (g.Render x all fields).1 = g := by
  simp [Group.Render, wireRange_eq]

theorem Render_hideFunc (x : Externals K F V) (g : Group K F V) (all : FieldMap K F)
    (fields : List (HuhField F)) :
    (g.Render x all fields).2.hideFunc () = hideDecision x g := by
  simp [Group.Render, wireRange_eq, HuhGroup.WithHideFunc]

theorem orMetScan_eq_any (x : Externals K F V) (cs : List (Condition K F V)) :
    orMetScan x cs = cs.any (fun c => c.Match x) := by
  induction cs with
  | nil => rfl
  | cons c cs ih =>
    simp only [orMetScan, List.any_cons, ih]
    cases c.Match x <;> simp

theorem andMetCountScan_eq (x : Externals K F V) (cs : List (Condition K F V)) (n : Nat) :
    andMetCountScan x cs n = n + cs.countP (fun c => c.Match x) := by
  unfold andMetCountScan
  induction cs generalizing n with
  | nil => simp
  | cons c cs ih =>
    simp only [List.foldl_cons, List.countP_cons, ih]
    cases c.Match x
    · simp
    · simp; omega

theorem hideDecision_eq (x : Externals K F V) (g : Group K F V) :
    hideDecision x g =
      (if g.DependsOn.OrConditions.length = 0 then
        (if g.DependsOn.AndConditions.length = 0 then false
         else (g.DependsOn.AndConditions.length
                == g.DependsOn.AndConditions.countP (fun c => c.Match x)))
       else
        (if g.DependsOn.AndConditions.length = 0 then
          g.DependsOn.OrConditions.any (fun c => c.Match x)
         else
          (g.DependsOn.OrConditions.any (fun c => c.Match x) &&
            (g.DependsOn.AndConditions.countP (fun c => c.Match x)
              == g.DependsOn.OrConditions.length)))) := by
  unfold hideDecision
  simp only [orMetScan_eq_any, andMetCountScan_eq, Nat.zero_add]
  rcases Nat.eq_zero_or_pos g.DependsOn.OrConditions.length with ho | ho <;>
    rcases Nat.eq_zero_or_pos g.DependsOn.AndConditions.length with ha | ha
  · simp [ho, ha]
  · have ha' : g.DependsOn.AndConditions.length ≠ 0 := by omega
    have ha2 : ¬ g.DependsOn.AndConditions.length < 1 := by omega
    simp [ho, ha, ha', ha2]
  · have ho' : g.DependsOn.OrConditions.length ≠ 0 := by omega
    have ho2 : ¬ g.DependsOn.OrConditions.length < 1 := by omega
    simp [ho, ha, ho', ho2]
  · have ho' : g.DependsOn.OrConditions.length ≠ 0 := by omega
    have ho2 : ¬ g.DependsOn.OrConditions.length < 1 := by omega
    have ha' : g.DependsOn.AndConditions.length ≠ 0 := by omega
    have ha2 : ¬ g.DependsOn.AndConditions.length < 1 := by omega
    simp [ho, ha, ho', ho2, ha', ha2]

theorem dropWhile_eq_nil_iff_all {α : Type} (p : α → Bool) (l : List α) :
    l.dropWhile p = [] ↔ ∀ a ∈ l, p a = true := by
  induction l with
  | nil => simp
  | cons a l ih =>
    cases h : p a with
    | true => simp [List.dropWhile_cons, h, ih]
    | false => simp [List.dropWhile_cons, h]

theorem dropWhile_reverse_dropWhile_eq_nil {α : Type} (p : α → Bool) (l : List α) :
    (l.dropWhile p).reverse.dropWhile p = [] ↔ l.dropWhile p = [] := by
  constructor
  · intro h
    have hall := (dropWhile_eq_nil_iff_all p _).mp h
    cases hd : l.dropWhile p with
    | nil => rfl
    | cons a rest =>
      exfalso
      have ha : p a = true := hall a (by simp [hd])
      have hna : ¬ (p a = true) := by
        have := List.head_dropWhile_not p l (by simp [hd])
        simpa [hd] using this
      exact hna ha
  · intro h
    simp [h]

theorem strutil_IsEmpty_iff (s : String) :
    strutil.IsEmpty s = true ↔ ∀ ch ∈ s.data, unicode.IsSpace ch = true := by
  unfold strutil.IsEmpty strings.TrimSpace
  rw [← dropWhile_eq_nil_iff_all, ← dropWhile_reverse_dropWhile_eq_nil]
  simp [String.length, List.length_eq_zero]

theorem commaOk_of_find?_none (m : FieldMap K F) (k : K) (h : m.find? k = none) :
    m.commaOk k = (none, false) := by
  cases m with
  | none => rfl
  | some f =>
    simp only [FieldMap.find?] at h
    simp [FieldMap.commaOk, h]

theorem commaOk_of_find?_some (m : FieldMap K F) (k : K) (v : HuhField F)
    (h : m.find? k = some v) : m.commaOk k = (v, true) := by
  cases m with
  | none => simp [FieldMap.find?] at h
  | some f =>
    simp only [FieldMap.find?] at h
    simp [FieldMap.commaOk, h]

theorem foldl_append_Validate (cs : List (Condition K F V)) (errs : List Error) :
    cs.foldl (fun errs v => errs ++ v.Validate) errs = errs ++ cs.flatMap Condition.Validate := by
  induction cs generalizing errs with
  | nil => simp
  | cons c cs ih => simp [List.foldl_cons, ih, List.flatMap_cons, List.append_assoc]

theorem Condition_Validate_eq (c : Condition K F V) :
    c.Validate =
      (if strutil.IsEmpty c.ParameterName then
        [Error.NewMissingErr "parameter_name" "condition"] else []) ++
      (if c.hasPredicate = false then [Error.New "missing a valid condition"] else []) := by
  unfold Condition.Validate Condition.hasPredicate
  cases c.ValueEmpty <;> cases c.ValueEquals <;> cases c.ValueNotEquals <;>
    cases c.ValueContains <;> cases c.ValueNotContains <;>
    cases strutil.IsEmpty c.ParameterName <;> simp

theorem Group_Validate_eq {K F V : Type} (g : Group K F V) :
    g.Validate =
      (if strutil.IsEmpty g.Name then
        [Error.New "the group missing required field: name"] else []) ++
        g.DependsOn.OrConditions.flatMap Condition.Validate ++
        g.DependsOn.AndConditions.flatMap Condition.Validate := by
  unfold Group.Validate
  simp only [foldl_append_Validate, List.nil_append]

theorem index_of_find?_none (m : FieldMap K F) (k : K) (h : m.find? k = none) :
    m.index k = none := by
  cases m with
  | none => rfl
  | some f =>
    simp only [FieldMap.find?] at h
    simp [FieldMap.index, h]

theorem IsEmpty_of_find?_none (x : Externals K F V) (c : Condition K F V)
    (h : c.fields.find? (x.GetFiledKey c.ParameterName) = none) (b : Bool) :
    c.IsEmpty x b = false := by
  simp [Condition.IsEmpty, commaOk_of_find?_none _ _ h]

theorem Match_eq_matchReturn (x : Externals K F V) (c : Condition K F V) :
    c.Match x =
      (match c.matchReturn with
       | some s => c.predicate x s
       | none => false) := by
  obtain ⟨fs, name, ve, veq, vne, vc, vnc⟩ := c
  cases ve with
  | some b => rfl
  | none =>
    cases veq with
    | some v => rfl
    | none =>
      cases vne with
      | some v => rfl
      | none =>
        cases vc with
        | some v => rfl
        | none =>
          cases vnc with
          | some v => rfl
          | none => rfl

theorem matchReturn_isSome (c : Condition K F V) :
    c.matchReturn.isSome = c.hasPredicate := by
  obtain ⟨fs, name, ve, veq, vne, vc, vnc⟩ := c
  cases ve <;> cases veq <;> cases vne <;> cases vc <;> cases vnc <;> rfl

theorem hasPredicate_of_Validate_nil (c : Condition K F V) (h : c.Validate = []) :
    c.hasPredicate = true := by
  rw [Condition_Validate_eq] at h
  cases hp : c.hasPredicate with
  | true => rfl
  | false => simp [hp] at h

theorem Condition_Validate_nil_of_Group (g : Group K F V) (h : g.Validate = [])
    (c : Condition K F V)
    (hc : c ∈ g.DependsOn.OrConditions ++ g.DependsOn.AndConditions) : c.Validate = [] := by
  rw [Group_Validate_eq] at h
  obtain ⟨h12, h3⟩ := List.append_eq_nil.mp h
  obtain ⟨_, h2⟩ := List.append_eq_nil.mp h12
  rcases List.mem_append.mp hc with hm | hm
  · exact List.flatMap_eq_nil_iff.mp h2 c hm
  · exact List.flatMap_eq_nil_iff.mp h3 c hm

theorem any_eq_of_perm {α : Type} (p : α → Bool) {l₁ l₂ : List α} (h : l₁.Perm l₂) :
    l₁.any p = l₂.any p := by
  cases h1 : l₁.any p with
  | true =>
    obtain ⟨a, ha, hp⟩ := List.any_eq_true.mp h1
    exact (List.any_eq_true.mpr ⟨a, h.mem_iff.mp ha, hp⟩).symm
  | false =>
    cases h2 : l₂.any p with
    | false => rfl
    | true =>
      obtain ⟨a, ha, hp⟩ := List.any_eq_true.mp h2
      rw [List.any_eq_true.mpr ⟨a, h.mem_iff.mpr ha, hp⟩] at h1
      exact absurd h1 (by decide)

theorem Match_of_find?_none (x : Externals K F V) (c : Condition K F V)
    (h : c.fields.find? (x.GetFiledKey c.ParameterName) = none) :
    c.Match x =
      (match c.matchReturn with
       | some Slot.valueEmpty => false
       | some Slot.valueEquals => x.Equal c.ValueEquals none
       | some Slot.valueNotEquals => x.NotEqual c.ValueNotEquals none
       | some Slot.valueContains => x.Contains none c.ValueContains
       | some Slot.valueNotContains => x.NotContains none c.ValueNotContains
       | none => false) := by
  have hi := index_of_find?_none _ _ h
  have he := IsEmpty_of_find?_none x c h
  rw [Match_eq_matchReturn]
  cases hr : c.matchReturn with
  | none => rfl
  | some s =>
    cases s with
    | valueEmpty =>
      simp only [Condition.predicate]
      cases c.ValueEmpty with
      | none => rfl
      | some b => exact he b
    | valueEquals => simp only [Condition.predicate, Condition.Equal, hi]
    | valueNotEquals => simp only [Condition.predicate, Condition.NotEqual, hi]
    | valueContains => simp only [Condition.predicate, Condition.Contains, hi]
    | valueNotContains => simp only [Condition.predicate, Condition.NotContains, hi]

end Lemmas

/-! ## The hide decision installed by `Group.Render` -/

section HideDecision

variable {K F V : Type}

/-- C1 (amended): for a group whose OR-bucket is non-empty and whose AND-bucket is
empty, the hide function installed by `Group.Render` returns true (group hidden)
if and only if at least one condition of the OR-bucket matches; it returns false
(group visible) if and only if no condition of the OR-bucket matches. -/
theorem C1_hidden_iff_some_or_condition_matches (x : Externals K F V) (g : Group K F V)
    (all : FieldMap K F) (fields : List (HuhField F))
    (hor : g.DependsOn.OrConditions ≠ []) (hand : g.DependsOn.AndConditions = []) :
    ((g.Render x all fields).2.hideFunc () = true ↔
        ∃ c ∈ (g.Render x all fields).1.DependsOn.OrConditions, c.Match x = true) ∧
      ((g.Render x all fields).2.hideFunc () = false ↔
        ∀ c ∈ (g.Render x all fields).1.DependsOn.OrConditions, c.Match x = false) := by
  have hlen : g.DependsOn.OrConditions.length ≠ 0 := by
    simpa [List.length_eq_zero] using hor
  rw [Render_hideFunc, Render_group, hideDecision_eq]
  simp [hand, hlen]

/-- C1 (witness): the amended statement at a group with one matching condition
in its OR-bucket (the field `scope` is registered and empty). -/
theorem C1_hidden_iff_some_or_condition_matches_witness :
    (Sample.mkGroup "body" [Sample.wiredCond "scope" true] []).DependsOn.OrConditions ≠ [] ∧
    (Sample.mkGroup "body" [Sample.wiredCond "scope" true] []).DependsOn.AndConditions = [] ∧
    ((((Sample.mkGroup "body" [Sample.wiredCond "scope" true] []).Render
          Sample.ext Sample.source []).2.hideFunc () = true ↔
        ∃ c ∈ ((Sample.mkGroup "body" [Sample.wiredCond "scope" true] []).Render
          Sample.ext Sample.source []).1.DependsOn.OrConditions, c.Match Sample.ext = true) ∧
      (((Sample.mkGroup "body" [Sample.wiredCond "scope" true] []).Render
          Sample.ext Sample.source []).2.hideFunc () = false ↔
        ∀ c ∈ ((Sample.mkGroup "body" [Sample.wiredCond "scope" true] []).Render
          Sample.ext Sample.source []).1.DependsOn.OrConditions, c.Match Sample.ext = false)) :=
  ⟨by simp [Sample.mkGroup], rfl,
    C1_hidden_iff_some_or_condition_matches Sample.ext
      (Sample.mkGroup "body" [Sample.wiredCond "scope" true] []) Sample.source []
      (by simp [Sample.mkGroup]) rfl⟩

/-- C1 (counterexample): a group with one OR-condition on a field that no map
registers and an empty AND-bucket. No OR-condition matches, and the hide function
returns false, so "hidden if and only if no OR-condition matches" fails. -/
theorem C1_counterexample :
    (∀ c ∈ ((Sample.mkGroup "body" [Sample.emptyCond "breaking" true] []).Render
        Sample.ext Sample.source []).1.DependsOn.OrConditions, c.Match Sample.ext = false) ∧
    ((Sample.mkGroup "body" [Sample.emptyCond "breaking" true] []).Render
        Sample.ext Sample.source []).2.hideFunc () = false ∧
    ¬ (((Sample.mkGroup "body" [Sample.emptyCond "breaking" true] []).Render
          Sample.ext Sample.source []).2.hideFunc () = true ↔
        ∀ c ∈ ((Sample.mkGroup "body" [Sample.emptyCond "breaking" true] []).Render
          Sample.ext Sample.source []).1.DependsOn.OrConditions, c.Match Sample.ext = false) := by
  decide

/-- C2 (amended): for a group whose OR-bucket is empty and whose AND-bucket is
non-empty, the hide function installed by `Group.Render` returns true (group
hidden) if and only if every condition of the AND-bucket matches, that is, if and
only if the number of matching AND-conditions equals `len(and_conditions)`; if at
least one AND-condition does not match, it returns false (group visible). -/
theorem C2_hidden_iff_all_and_conditions_match (x : Externals K F V) (g : Group K F V)
    (all : FieldMap K F) (fields : List (HuhField F))
    (hor : g.DependsOn.OrConditions = []) (hand : g.DependsOn.AndConditions ≠ []) :
    ((g.Render x all fields).2.hideFunc () = true ↔
        ∀ c ∈ (g.Render x all fields).1.DependsOn.AndConditions, c.Match x = true) ∧
      ((g.Render x all fields).2.hideFunc () = true ↔
        (g.Render x all fields).1.DependsOn.AndConditions.countP (fun c => c.Match x)
          = (g.Render x all fields).1.DependsOn.AndConditions.length) ∧
      ((∃ c ∈ (g.Render x all fields).1.DependsOn.AndConditions, c.Match x = false) →
        (g.Render x all fields).2.hideFunc () = false) := by
  have hlen : g.DependsOn.AndConditions.length ≠ 0 := by
    simpa [List.length_eq_zero] using hand
  have hcount : (g.Render x all fields).2.hideFunc () = true ↔
      g.DependsOn.AndConditions.countP (fun c => c.Match x)
        = g.DependsOn.AndConditions.length := by
    rw [Render_hideFunc, hideDecision_eq]
    simp only [hor, hlen, List.length_nil, if_true, if_false, beq_iff_eq]
    exact eq_comm
  have hall : (g.Render x all fields).2.hideFunc () = true ↔
      ∀ c ∈ g.DependsOn.AndConditions, c.Match x = true := by
    rw [hcount, List.countP_eq_length]
  rw [Render_group]
  refine ⟨hall, hcount, ?_⟩
  rintro ⟨c, hc, hm⟩
  cases h : (g.Render x all fields).2.hideFunc () with
  | false => rfl
  | true =>
    have := hall.mp h c hc
    rw [hm] at this
    exact absurd this (by decide)

/-- C2 (witness): the amended statement at a group whose AND-bucket holds two
matching conditions. -/
theorem C2_hidden_iff_all_and_conditions_match_witness :
    (Sample.mkGroup "body" [] [Sample.wiredCond "scope" true,
        Sample.wiredCond "type" false]).DependsOn.OrConditions = [] ∧
    (Sample.mkGroup "body" [] [Sample.wiredCond "scope" true,
        Sample.wiredCond "type" false]).DependsOn.AndConditions ≠ [] ∧
    (((Sample.mkGroup "body" [] [Sample.wiredCond "scope" true,
        Sample.wiredCond "type" false]).Render Sample.ext Sample.source []).2.hideFunc () = true ↔
      ∀ c ∈ ((Sample.mkGroup "body" [] [Sample.wiredCond "scope" true,
        Sample.wiredCond "type" false]).Render Sample.ext Sample.source []).1.DependsOn.AndConditions,
        c.Match Sample.ext = true) :=
  ⟨rfl, by simp [Sample.mkGroup],
    (C2_hidden_iff_all_and_conditions_match Sample.ext
      (Sample.mkGroup "body" [] [Sample.wiredCond "scope" true, Sample.wiredCond "type" false])
      Sample.source [] rfl (by simp [Sample.mkGroup])).1⟩

/-- C2 (counterexample): a group with an empty OR-bucket and two AND-conditions on
fields that no map registers. Neither condition matches and the hide function
returns false (group visible), so "visible if and only if every AND-condition
matches" and "hidden if an AND-condition does not match" both fail. -/
theorem C2_counterexample :
    (∀ c ∈ ((Sample.mkGroup "body" [] [Sample.emptyCond "breaking" true,
        Sample.emptyCond "footer" false]).Render Sample.ext Sample.source []).1.DependsOn.AndConditions,
        c.Match Sample.ext = false) ∧
    ((Sample.mkGroup "body" [] [Sample.emptyCond "breaking" true,
        Sample.emptyCond "footer" false]).Render Sample.ext Sample.source []).2.hideFunc () = false ∧
    ¬ (((Sample.mkGroup "body" [] [Sample.emptyCond "breaking" true,
          Sample.emptyCond "footer" false]).Render Sample.ext Sample.source []).2.hideFunc () = false ↔
        ∀ c ∈ ((Sample.mkGroup "body" [] [Sample.emptyCond "breaking" true,
          Sample.emptyCond "footer" false]).Render Sample.ext Sample.source []).1.DependsOn.AndConditions,
          c.Match Sample.ext = true) := by
  decide

/-- C3 (amended): for a group whose OR-bucket and AND-bucket are both non-empty,
the hide function installed by `Group.Render` returns true (group hidden) if and
only if at least one OR-condition matches and the number of matching
AND-conditions equals `len(or_conditions)` (not `len(and_conditions)`). -/
theorem C3_hidden_iff_or_met_and_count_eq_or_count (x : Externals K F V) (g : Group K F V)
    (all : FieldMap K F) (fields : List (HuhField F))
    (hor : g.DependsOn.OrConditions ≠ []) (hand : g.DependsOn.AndConditions ≠ []) :
    (g.Render x all fields).2.hideFunc () = true ↔
      (∃ c ∈ (g.Render x all fields).1.DependsOn.OrConditions, c.Match x = true) ∧
        (g.Render x all fields).1.DependsOn.AndConditions.countP (fun c => c.Match x)
          = (g.Render x all fields).1.DependsOn.OrConditions.length := by
  have hlo : g.DependsOn.OrConditions.length ≠ 0 := by
    simpa [List.length_eq_zero] using hor
  have hla : g.DependsOn.AndConditions.length ≠ 0 := by
    simpa [List.length_eq_zero] using hand
  rw [Render_hideFunc, Render_group, hideDecision_eq]
  simp [hlo, hla]

/-- C3 (witness): the amended statement at a group with one matching OR-condition
and one matching AND-condition. -/
theorem C3_hidden_iff_or_met_and_count_eq_or_count_witness :
    (Sample.mkGroup "body" [Sample.wiredCond "scope" true]
        [Sample.wiredCond "type" false]).DependsOn.OrConditions ≠ [] ∧
    (Sample.mkGroup "body" [Sample.wiredCond "scope" true]
        [Sample.wiredCond "type" false]).DependsOn.AndConditions ≠ [] ∧
    (((Sample.mkGroup "body" [Sample.wiredCond "scope" true]
        [Sample.wiredCond "type" false]).Render Sample.ext Sample.source []).2.hideFunc () = true ↔
      (∃ c ∈ ((Sample.mkGroup "body" [Sample.wiredCond "scope" true]
          [Sample.wiredCond "type" false]).Render Sample.ext Sample.source []).1.DependsOn.OrConditions,
          c.Match Sample.ext = true) ∧
        ((Sample.mkGroup "body" [Sample.wiredCond "scope" true]
          [Sample.wiredCond "type" false]).Render Sample.ext Sample.source []).1.DependsOn.AndConditions.countP
            (fun c => c.Match Sample.ext)
          = ((Sample.mkGroup "body" [Sample.wiredCond "scope" true]
          [Sample.wiredCond "type" false]).Render Sample.ext Sample.source []).1.DependsOn.OrConditions.length) :=
  ⟨by simp [Sample.mkGroup], by simp [Sample.mkGroup],
    C3_hidden_iff_or_met_and_count_eq_or_count Sample.ext
      (Sample.mkGroup "body" [Sample.wiredCond "scope" true] [Sample.wiredCond "type" false])
      Sample.source [] (by simp [Sample.mkGroup]) (by simp [Sample.mkGroup])⟩

/-- C3 (counterexample): an OR-bucket of size 2 and an AND-bucket of size 1, all
on fields that no map registers. No OR-condition matches and the matched count
of the AND-bucket is 0, not 2, yet the hide function returns false (group
visible), so "visible if and only if an OR-condition matches and the AND matched
count equals `len(or_conditions)`" fails. -/
theorem C3_counterexample :
    ((Sample.mkGroup "body" [Sample.emptyCond "breaking" true, Sample.emptyCond "footer" true]
        [Sample.emptyCond "issue" false]).Render Sample.ext Sample.source []).2.hideFunc () = false ∧
    ¬ (((Sample.mkGroup "body" [Sample.emptyCond "breaking" true, Sample.emptyCond "footer" true]
          [Sample.emptyCond "issue" false]).Render Sample.ext Sample.source []).2.hideFunc () = false ↔
        (∃ c ∈ ((Sample.mkGroup "body" [Sample.emptyCond "breaking" true, Sample.emptyCond "footer" true]
            [Sample.emptyCond "issue" false]).Render Sample.ext Sample.source []).1.DependsOn.OrConditions,
            c.Match Sample.ext = true) ∧
          ((Sample.mkGroup "body" [Sample.emptyCond "breaking" true, Sample.emptyCond "footer" true]
            [Sample.emptyCond "issue" false]).Render Sample.ext Sample.source []).1.DependsOn.AndConditions.countP
              (fun c => c.Match Sample.ext) = 2) := by
  decide

/-- C4: for a group whose OR-bucket and AND-bucket are both empty, the hide
function installed by `Group.Render` returns false for every map handed to
`Render`, every list of fields and every instance of the external functions. -/
theorem C4_never_hidden_without_conditions (x : Externals K F V) (g : Group K F V)
    (all : FieldMap K F) (fields : List (HuhField F))
    (hor : g.DependsOn.OrConditions = []) (hand : g.DependsOn.AndConditions = []) :
    (g.Render x all fields).2.hideFunc () = false := by
  rw [Render_hideFunc, hideDecision_eq]
  simp [hor, hand]

/-- C4 (witness): a group without conditions is not hidden. -/
theorem C4_never_hidden_without_conditions_witness :
    (Sample.mkGroup "body" [] []).DependsOn.OrConditions = [] ∧
    (Sample.mkGroup "body" [] []).DependsOn.AndConditions = [] ∧
    ((Sample.mkGroup "body" [] []).Render Sample.ext Sample.source [some "x"]).2.hideFunc () = false :=
  ⟨rfl, rfl,
    C4_never_hidden_without_conditions Sample.ext (Sample.mkGroup "body" [] []) Sample.source
      [some "x"] rfl rfl⟩

end HideDecision

/-! ## The wiring loops of `Group.Render` -/

section Wiring

/-- C5 (the code at the failing input): `Render` is called with a map that
registers `scope` (empty) and `type` (`feat`) on a group whose OR-condition asks
for an empty `scope` and whose AND-condition asks for a non-empty `type`. After
the call both stored conditions still hold the nil map, neither matches, and the
hide function returns false; the same two conditions holding the map handed to
`Render` both match and make the hide function return true. -/
theorem C5_render_leaves_conditions_unwired :
    (((Sample.mkGroup "body" [Sample.emptyCond "scope" true]
        [Sample.emptyCond "type" false]).Render Sample.ext Sample.source []).1.DependsOn.OrConditions.map
          (fun c => c.fields.isNone) = [true]) ∧
    (((Sample.mkGroup "body" [Sample.emptyCond "scope" true]
        [Sample.emptyCond "type" false]).Render Sample.ext Sample.source []).1.DependsOn.AndConditions.map
          (fun c => c.fields.isNone) = [true]) ∧
    (((Sample.mkGroup "body" [Sample.emptyCond "scope" true]
        [Sample.emptyCond "type" false]).Render Sample.ext Sample.source []).1.DependsOn.OrConditions.map
          (fun c => c.Match Sample.ext) = [false]) ∧
    (((Sample.mkGroup "body" [Sample.emptyCond "scope" true]
        [Sample.emptyCond "type" false]).Render Sample.ext Sample.source []).1.DependsOn.AndConditions.map
          (fun c => c.Match Sample.ext) = [false]) ∧
    ((Sample.mkGroup "body" [Sample.emptyCond "scope" true]
        [Sample.emptyCond "type" false]).Render Sample.ext Sample.source []).2.hideFunc () = false ∧
    Sample.source.isSome = true ∧
    (Sample.wiredCond "scope" true).Match Sample.ext = true ∧
    (Sample.wiredCond "type" false).Match Sample.ext = true ∧
    hideDecision Sample.ext (Sample.mkGroup "body" [Sample.wiredCond "scope" true]
        [Sample.wiredCond "type" false]) = true := by
  decide

end Wiring

/-! ## `Condition.Match` and `Condition.IsEmpty` -/

section Matching

variable {K F V : Type}

/-- C6: `Match` returns the result of the predicate of the highest-priority member
that is set, in the order `value_empty`, `value_equals`, `value_not_equals`,
`value_contains`, `value_not_contains`; and overwriting the members of lower
priority than the first set one, with any values, leaves `Match` unchanged. -/
theorem C6_match_follows_priority_order (x : Externals K F V) (c : Condition K F V) :
    (∀ b, c.ValueEmpty = some b → c.Match x = c.IsEmpty x b) ∧
    (c.ValueEmpty = none → c.ValueEquals ≠ none → c.Match x = c.Equal x) ∧
    (c.ValueEmpty = none → c.ValueEquals = none → c.ValueNotEquals ≠ none →
      c.Match x = c.NotEqual x) ∧
    (c.ValueEmpty = none → c.ValueEquals = none → c.ValueNotEquals = none →
      c.ValueContains ≠ none → c.Match x = c.Contains x) ∧
    (c.ValueEmpty = none → c.ValueEquals = none → c.ValueNotEquals = none →
      c.ValueContains = none → c.ValueNotContains ≠ none → c.Match x = c.NotContains x) ∧
    (c.ValueEmpty ≠ none → ∀ e ne ct nct : Option V,
      Condition.Match x { c with ValueEquals := e, ValueNotEquals := ne, ValueContains := ct,
                                 ValueNotContains := nct } = c.Match x) ∧
    (c.ValueEmpty = none → c.ValueEquals ≠ none → ∀ ne ct nct : Option V,
      Condition.Match x { c with ValueNotEquals := ne, ValueContains := ct,
                                 ValueNotContains := nct } = c.Match x) ∧
    (c.ValueEmpty = none → c.ValueEquals = none → c.ValueNotEquals ≠ none →
      ∀ ct nct : Option V,
      Condition.Match x { c with ValueContains := ct, ValueNotContains := nct } = c.Match x) ∧
    (c.ValueEmpty = none → c.ValueEquals = none → c.ValueNotEquals = none →
      c.ValueContains ≠ none → ∀ nct : Option V,
      Condition.Match x { c with ValueNotContains := nct } = c.Match x) := by
  obtain ⟨fs, name, ve, veq, vne, vc, vnc⟩ := c
  refine ⟨?_, ?_, ?_, ?_, ?_, ?_, ?_, ?_, ?_⟩
  · rintro b ⟨⟩
    rfl
  · rintro ⟨⟩ h
    cases veq with
    | none => exact absurd rfl h
    | some v => rfl
  · rintro ⟨⟩ ⟨⟩ h
    cases vne with
    | none => exact absurd rfl h
    | some v => rfl
  · rintro ⟨⟩ ⟨⟩ ⟨⟩ h
    cases vc with
    | none => exact absurd rfl h
    | some v => rfl
  · rintro ⟨⟩ ⟨⟩ ⟨⟩ ⟨⟩ h
    cases vnc with
    | none => exact absurd rfl h
    | some v => rfl
  · intro h e ne ct nct
    cases ve with
    | none => exact absurd rfl h
    | some b => rfl
  · rintro ⟨⟩ h ne ct nct
    cases veq with
    | none => exact absurd rfl h
    | some v => rfl
  · rintro ⟨⟩ ⟨⟩ h ct nct
    cases vne with
    | none => exact absurd rfl h
    | some v => rfl
  · rintro ⟨⟩ ⟨⟩ ⟨⟩ h nct
    cases vc with
    | none => exact absurd rfl h
    | some v => rfl

/-- C7: for a condition with `value_empty` set, read against the map the condition
holds: with `value_empty = true`, `Match` is true if and only if the key of
`parameter_name` is registered and `helpers.Empty` holds of its value; with
`value_empty = false`, `Match` is true if and only if the key is registered and
`helpers.NotEmpty` holds of its value; and when the key is not registered,
`Match`, `IsEmpty(true)` and `IsEmpty(false)` are all false. -/
theorem C7_value_empty_match (x : Externals K F V) (c : Condition K F V) :
    (c.ValueEmpty = some true →
      (c.Match x = true ↔
        ∃ val, c.fields.find? (x.GetFiledKey c.ParameterName) = some val ∧ x.Empty val = true)) ∧
    (c.ValueEmpty = some false →
      (c.Match x = true ↔
        ∃ val, c.fields.find? (x.GetFiledKey c.ParameterName) = some val ∧
          x.NotEmpty val = true)) ∧
    (c.fields.find? (x.GetFiledKey c.ParameterName) = none →
      c.IsEmpty x true = false ∧ c.IsEmpty x false = false ∧
        ∀ b, c.ValueEmpty = some b → c.Match x = false) := by
  have hIs : ∀ b, c.ValueEmpty = some b → c.Match x = c.IsEmpty x b := by
    intro b hb
    simp [Condition.Match, hb]
  have habs : c.fields.find? (x.GetFiledKey c.ParameterName) = none →
      ∀ b, c.IsEmpty x b = false := by
    intro h b
    simp [Condition.IsEmpty, commaOk_of_find?_none _ _ h]
  have hpres : ∀ val, c.fields.find? (x.GetFiledKey c.ParameterName) = some val →
      c.IsEmpty x true = x.Empty val ∧ c.IsEmpty x false = x.NotEmpty val := by
    intro val h
    simp [Condition.IsEmpty, commaOk_of_find?_some _ _ _ h]
  refine ⟨?_, ?_, ?_⟩
  · intro hb
    rw [hIs true hb]
    cases hf : c.fields.find? (x.GetFiledKey c.ParameterName) with
    | none => simp [habs hf true]
    | some val => simp [(hpres val hf).1]
  · intro hb
    rw [hIs false hb]
    cases hf : c.fields.find? (x.GetFiledKey c.ParameterName) with
    | none => simp [habs hf false]
    | some val => simp [(hpres val hf).2]
  · intro h
    refine ⟨habs h true, habs h false, ?_⟩
    intro b hb
    rw [hIs b hb]
    exact habs h b

/-- C6 (instance): a condition with `value_empty`, `value_equals` and
`value_not_contains` all set is decided by `IsEmpty` alone. -/
theorem C6_match_follows_priority_order_witness :
    Condition.Match Sample.ext
        { Sample.wiredCond "scope" true with ValueEquals := some "feat",
                                             ValueNotContains := some "fix" }
      = Condition.IsEmpty Sample.ext
        { Sample.wiredCond "scope" true with ValueEquals := some "feat",
                                             ValueNotContains := some "fix" } true :=
  (C6_match_follows_priority_order Sample.ext
    { Sample.wiredCond "scope" true with ValueEquals := some "feat",
                                         ValueNotContains := some "fix" }).1 true rfl

/-- C7 (instance): on the sample map, the condition "`scope` is empty" matches
exactly when `scope` is registered with an empty value. -/
theorem C7_value_empty_match_witness :
    (Sample.wiredCond "scope" true).Match Sample.ext = true ↔
      ∃ val, (Sample.wiredCond "scope" true).fields.find?
          (Sample.ext.GetFiledKey (Sample.wiredCond "scope" true).ParameterName) = some val ∧
        Sample.ext.Empty val = true :=
  (C7_value_empty_match Sample.ext (Sample.wiredCond "scope" true)).1 rfl

end Matching

/-! ## Validation -/

section Validation

variable {K F V : Type}

/-- C8 (amended): `Group.Validate` returns exactly the group-name error (present
if and only if the name is empty or consists only of white space, which is what
`strutil.IsEmpty` tests), followed by the validation errors of the OR-bucket
conditions in bucket order, followed by the validation errors of the AND-bucket
conditions in bucket order. -/
theorem C8_group_validate_error_order (g : Group K F V) :
    g.Validate =
        (if strutil.IsEmpty g.Name then
          [Error.New "the group missing required field: name"] else []) ++
          g.DependsOn.OrConditions.flatMap Condition.Validate ++
          g.DependsOn.AndConditions.flatMap Condition.Validate ∧
    (strutil.IsEmpty g.Name = true ↔ ∀ ch ∈ g.Name.data, unicode.IsSpace ch = true) :=
  ⟨Group_Validate_eq g, strutil_IsEmpty_iff g.Name⟩

/-- C8 (counterexample): a group named with a single space and two valid
conditions. The name is not the empty string, yet `Validate` returns the
group-name error, so the list is not the one the statement with "name is empty"
gives. -/
theorem C8_counterexample :
    (Sample.mkGroup " " [Sample.emptyCond "scope" true]
        [Sample.emptyCond "type" false]).Name ≠ "" ∧
    (Sample.mkGroup " " [Sample.emptyCond "scope" true]
        [Sample.emptyCond "type" false]).Validate =
      [Error.New "the group missing required field: name"] ∧
    ¬ ((Sample.mkGroup " " [Sample.emptyCond "scope" true]
        [Sample.emptyCond "type" false]).Validate =
      (if (Sample.mkGroup " " [Sample.emptyCond "scope" true]
            [Sample.emptyCond "type" false]).Name = "" then
          [Error.New "the group missing required field: name"] else []) ++
        (Sample.mkGroup " " [Sample.emptyCond "scope" true]
          [Sample.emptyCond "type" false]).DependsOn.OrConditions.flatMap Condition.Validate ++
        (Sample.mkGroup " " [Sample.emptyCond "scope" true]
          [Sample.emptyCond "type" false]).DependsOn.AndConditions.flatMap
            Condition.Validate) := by
  decide

/-- C9 (amended): `Group.Validate` collects every problem: the number of errors is
1 if the name is empty or only white space (else 0) plus, summed over the
conditions of both buckets, 1 if `parameter_name` is empty or only white space
(else 0) plus 1 if none of the five predicate members is set (else 0). A group
with an empty name and one condition with an empty `parameter_name` and no
predicate yields exactly three errors, whichever bucket holds the condition. -/
theorem C9_group_validate_counts_all_errors (g : Group K F V) :
    g.Validate.length =
        (if strutil.IsEmpty g.Name then 1 else 0) +
          ((g.DependsOn.OrConditions ++ g.DependsOn.AndConditions).map (fun c =>
            (if strutil.IsEmpty c.ParameterName then 1 else 0) +
              (if c.hasPredicate = false then 1 else 0))).sum ∧
    (Sample.mkGroup "" [Sample.blankCond] []).Validate =
        [Error.New "the group missing required field: name",
         Error.NewMissingErr "parameter_name" "condition",
         Error.New "missing a valid condition"] ∧
    (Sample.mkGroup "" [] [Sample.blankCond]).Validate =
        [Error.New "the group missing required field: name",
         Error.NewMissingErr "parameter_name" "condition",
         Error.New "missing a valid condition"] := by
  refine ⟨?_, by decide, by decide⟩
  have hlen : ∀ c : Condition K F V, (List.length ∘ Condition.Validate) c =
      (if strutil.IsEmpty c.ParameterName then 1 else 0) +
        (if c.hasPredicate = false then 1 else 0) := by
    intro c
    simp only [Function.comp, Condition_Validate_eq, List.length_append]
    cases strutil.IsEmpty c.ParameterName <;> cases c.hasPredicate <;> simp
  rw [Group_Validate_eq g]
  simp only [List.length_append, List.length_flatMap, List.map_append, List.sum_append,
    funext hlen]
  cases strutil.IsEmpty g.Name
  · simp only [Bool.false_eq_true, if_false, List.length_nil]
    omega
  · simp only [if_true, List.length_singleton]
    omega

/-- C9 (counterexample): a group named with two spaces whose only condition is
valid. Neither the name nor the `parameter_name` is the empty string and a
predicate member is set, so the count by "is empty" is 0; `Validate` returns one
error. -/
theorem C9_counterexample :
    (Sample.mkGroup "  " [Sample.emptyCond "scope" true] []).Validate.length = 1 ∧
    ((if (Sample.mkGroup "  " [Sample.emptyCond "scope" true] []).Name = "" then 1 else 0) +
      (((Sample.mkGroup "  " [Sample.emptyCond "scope" true] []).DependsOn.OrConditions ++
          (Sample.mkGroup "  " [Sample.emptyCond "scope" true] []).DependsOn.AndConditions).map
        (fun c => (if c.ParameterName = "" then 1 else 0) +
          (if c.hasPredicate = false then 1 else 0))).sum) = 0 := by
  decide

/-- C10 (amended): `Condition.Validate` returns the `parameter_name` error if
`parameter_name` is empty or consists only of white space (the test of
`strutil.IsEmpty`), then the missing-predicate error if none of the five predicate
members is set, and nothing else; it returns the empty list if and only if
`parameter_name` holds a character that is not white space and at least one member
is set; and when at least one member is set, however many, the missing-predicate
error is not returned. -/
theorem C10_condition_validate (c : Condition K F V) :
    c.Validate =
        (if strutil.IsEmpty c.ParameterName then
          [Error.NewMissingErr "parameter_name" "condition"] else []) ++
        (if c.hasPredicate = false then [Error.New "missing a valid condition"] else []) ∧
    (strutil.IsEmpty c.ParameterName = true ↔
      ∀ ch ∈ c.ParameterName.data, unicode.IsSpace ch = true) ∧
    (c.hasPredicate = true ↔
      (c.ValueEmpty ≠ none ∨ c.ValueEquals ≠ none ∨ c.ValueNotEquals ≠ none ∨
          c.ValueContains ≠ none ∨ c.ValueNotContains ≠ none)) ∧
    (c.Validate = [] ↔
      strutil.IsEmpty c.ParameterName = false ∧
        (c.ValueEmpty ≠ none ∨ c.ValueEquals ≠ none ∨ c.ValueNotEquals ≠ none ∨
          c.ValueContains ≠ none ∨ c.ValueNotContains ≠ none)) ∧
    ((c.ValueEmpty ≠ none ∨ c.ValueEquals ≠ none ∨ c.ValueNotEquals ≠ none ∨
          c.ValueContains ≠ none ∨ c.ValueNotContains ≠ none) →
      c.Validate =
        (if strutil.IsEmpty c.ParameterName then
          [Error.NewMissingErr "parameter_name" "condition"] else [])) := by
  refine ⟨Condition_Validate_eq c, strutil_IsEmpty_iff c.ParameterName, ?_⟩
  rw [Condition_Validate_eq]
  obtain ⟨fs, name, ve, veq, vne, vc, vnc⟩ := c
  simp only [Condition.hasPredicate]
  cases ve <;> cases veq <;> cases vne <;> cases vc <;> cases vnc <;>
    cases strutil.IsEmpty name <;> simp

/-- C10 (instance): a named condition with two members set validates cleanly. -/
theorem C10_condition_validate_witness :
    Condition.Validate
        { Sample.emptyCond "type" false with ValueEquals := some "feat" } = [] :=
  (C10_condition_validate
    { Sample.emptyCond "type" false with ValueEquals := some "feat" }).2.2.2.2
      (Or.inl (by simp [Sample.emptyCond])) |>.trans (by decide)

/-- C10 (counterexample): a condition whose `parameter_name` is two spaces, with
`value_empty` set. The `parameter_name` is not the empty string and a member is
set, yet `Validate` returns the `parameter_name` error instead of the empty list. -/
theorem C10_counterexample :
    (Sample.emptyCond "  " true).ParameterName ≠ "" ∧
    (Sample.emptyCond "  " true).ValueEmpty ≠ none ∧
    (Sample.emptyCond "  " true).Validate =
      [Error.NewMissingErr "parameter_name" "condition"] := by
  decide

end Validation

/-! ## `NewGroup` -/

section Construction

variable {K F V : Type}

/-- C12 (amended): `NewGroup(name)` returns a group whose name is `name` and whose
two buckets are empty; its `Validate` returns an error if and only if the name is
empty or consists only of white space, the test of `strutil.IsEmpty` (and then
exactly the group-name error); and the hide function of its `Render` returns
false for every map and every list of fields. -/
theorem C12_new_group (x : Externals K F V) (name : String) (all : FieldMap K F)
    (fields : List (HuhField F)) :
    (NewGroup name : Group K F V).Name = name ∧
    (NewGroup name : Group K F V).DependsOn.AndConditions = [] ∧
    (NewGroup name : Group K F V).DependsOn.OrConditions = [] ∧
    ((NewGroup name : Group K F V).Validate ≠ [] ↔ strutil.IsEmpty name = true) ∧
    (strutil.IsEmpty name = true ↔ ∀ ch ∈ name.data, unicode.IsSpace ch = true) ∧
    (NewGroup name : Group K F V).Validate =
      (if strutil.IsEmpty name then
        [Error.New "the group missing required field: name"] else []) ∧
    ((NewGroup name : Group K F V).Render x all fields).2.hideFunc () = false := by
  refine ⟨rfl, rfl, rfl, ?_, strutil_IsEmpty_iff name, ?_, ?_⟩
  · rw [Group_Validate_eq]
    cases h : strutil.IsEmpty name <;> simp [NewGroup, h]
  · rw [Group_Validate_eq]
    simp [NewGroup]
  · rw [Render_hideFunc, hideDecision_eq]
    simp [NewGroup]

/-- C12 (counterexample): `NewGroup` with a name of one space. The name is not the
empty string, yet `Validate` returns the group-name error. -/
theorem C12_counterexample :
    (" " : String) ≠ "" ∧
    (NewGroup " " : Group String String String).Name = " " ∧
    (NewGroup " " : Group String String String).Validate =
      [Error.New "the group missing required field: name"] := by
  decide

end Construction

/-! ## Further properties of the hide decision -/

section HideProperties

variable {K F V : Type}

/-- C13: the hide decision does not depend on the order within a bucket: replacing
`or_conditions` by a permutation of itself and `and_conditions` by a permutation
of itself leaves the result of the hide function installed by `Group.Render`
unchanged. -/
theorem C13_hide_order_independent (x : Externals K F V) (g : Group K F V)
    (ors ands : List (Condition K F V)) (all : FieldMap K F) (fields : List (HuhField F))
    (hor : ors.Perm g.DependsOn.OrConditions) (hand : ands.Perm g.DependsOn.AndConditions) :
    (Group.Render x { g with DependsOn := { AndConditions := ands, OrConditions := ors } }
        all fields).2.hideFunc ()
      = (g.Render x all fields).2.hideFunc () := by
  rw [Render_hideFunc, Render_hideFunc, hideDecision_eq, hideDecision_eq]
  simp only [hor.length_eq, hand.length_eq, any_eq_of_perm _ hor, hand.countP_eq]

/-- C13 (witness): swapping the two conditions of each bucket of a group. -/
theorem C13_hide_order_independent_witness :
    (Group.Render Sample.ext
        { Sample.mkGroup "body" [Sample.wiredCond "scope" true, Sample.wiredCond "type" true]
            [Sample.wiredCond "type" false, Sample.wiredCond "scope" false] with
          DependsOn :=
            { AndConditions := [Sample.wiredCond "scope" false, Sample.wiredCond "type" false],
              OrConditions := [Sample.wiredCond "type" true, Sample.wiredCond "scope" true] } }
        Sample.source []).2.hideFunc ()
      = ((Sample.mkGroup "body" [Sample.wiredCond "scope" true, Sample.wiredCond "type" true]
            [Sample.wiredCond "type" false, Sample.wiredCond "scope" false]).Render
          Sample.ext Sample.source []).2.hideFunc () :=
  C13_hide_order_independent Sample.ext
    (Sample.mkGroup "body" [Sample.wiredCond "scope" true, Sample.wiredCond "type" true]
      [Sample.wiredCond "type" false, Sample.wiredCond "scope" false])
    [Sample.wiredCond "type" true, Sample.wiredCond "scope" true]
    [Sample.wiredCond "scope" false, Sample.wiredCond "type" false]
    Sample.source []
    (List.Perm.swap _ _ [])
    (List.Perm.swap _ _ [])

/-- C17: for a group with both buckets non-empty and more OR-conditions than
AND-conditions, the hide function installed by `Group.Render` returns false,
whatever the conditions and the helpers make `Match` return: the number of
matching AND-conditions is at most `len(and_conditions)` and cannot equal
`len(or_conditions)`. -/
theorem C17_never_hidden_when_or_bucket_larger (x : Externals K F V) (g : Group K F V)
    (all : FieldMap K F) (fields : List (HuhField F))
    (hor : g.DependsOn.OrConditions ≠ []) (hand : g.DependsOn.AndConditions ≠ [])
    (hlt : g.DependsOn.AndConditions.length < g.DependsOn.OrConditions.length) :
    (g.Render x all fields).2.hideFunc () = false := by
  have hlo : g.DependsOn.OrConditions.length ≠ 0 := by
    simpa [List.length_eq_zero] using hor
  have hla : g.DependsOn.AndConditions.length ≠ 0 := by
    simpa [List.length_eq_zero] using hand
  have hle := List.countP_le_length (fun c : Condition K F V => c.Match x)
    (l := g.DependsOn.AndConditions)
  have hne : g.DependsOn.AndConditions.countP (fun c => c.Match x)
      ≠ g.DependsOn.OrConditions.length := by omega
  rw [Render_hideFunc, hideDecision_eq]
  simp [hlo, hla, hne]

/-- C17 (witness): two matching OR-conditions and one matching AND-condition; the
group is not hidden. -/
theorem C17_never_hidden_when_or_bucket_larger_witness :
    ((Sample.mkGroup "body" [Sample.wiredCond "scope" true, Sample.wiredCond "type" false]
        [Sample.wiredCond "type" false]).Render Sample.ext Sample.source []).2.hideFunc ()
      = false :=
  C17_never_hidden_when_or_bucket_larger Sample.ext
    (Sample.mkGroup "body" [Sample.wiredCond "scope" true, Sample.wiredCond "type" false]
      [Sample.wiredCond "type" false])
    Sample.source [] (by simp [Sample.mkGroup]) (by simp [Sample.mkGroup])
    (by simp [Sample.mkGroup])

/-- C18: if no condition of either bucket matches, the hide function installed by
`Group.Render` returns false; equivalently, whenever it returns true, at least one
condition of the group matches. -/
theorem C18_hidden_only_if_some_condition_matches (x : Externals K F V) (g : Group K F V)
    (all : FieldMap K F) (fields : List (HuhField F)) :
    ((∀ c ∈ (g.Render x all fields).1.DependsOn.OrConditions ++
          (g.Render x all fields).1.DependsOn.AndConditions, c.Match x = false) →
      (g.Render x all fields).2.hideFunc () = false) ∧
    ((g.Render x all fields).2.hideFunc () = true →
      ∃ c ∈ (g.Render x all fields).1.DependsOn.OrConditions ++
          (g.Render x all fields).1.DependsOn.AndConditions, c.Match x = true) := by
  have key : (∀ c ∈ g.DependsOn.OrConditions ++ g.DependsOn.AndConditions,
      c.Match x = false) → hideDecision x g = false := by
    intro hall
    have hany : g.DependsOn.OrConditions.any (fun c => c.Match x) = false := by
      cases h : g.DependsOn.OrConditions.any (fun c => c.Match x) with
      | false => rfl
      | true =>
        obtain ⟨c, hc, hm⟩ := List.any_eq_true.mp h
        rw [hall c (List.mem_append.mpr (Or.inl hc))] at hm
        exact absurd hm (by decide)
    have hcount : g.DependsOn.AndConditions.countP (fun c => c.Match x) = 0 := by
      rw [List.countP_eq_zero]
      intro c hc
      rw [hall c (List.mem_append.mpr (Or.inr hc))]
      decide
    rw [hideDecision_eq, hany, hcount]
    by_cases ho : g.DependsOn.OrConditions.length = 0 <;>
      by_cases ha : g.DependsOn.AndConditions.length = 0 <;> simp [ho, ha]
  rw [Render_hideFunc, Render_group]
  refine ⟨key, ?_⟩
  intro hh
  by_contra hno
  have hall : ∀ c ∈ g.DependsOn.OrConditions ++ g.DependsOn.AndConditions,
      c.Match x = false := by
    intro c hc
    cases hm : c.Match x with
    | false => rfl
    | true => exact absurd ⟨c, hc, hm⟩ hno
  rw [key hall] at hh
  exact absurd hh (by decide)

/-- C18 (instance): a group whose conditions are all on unregistered fields is not
hidden. -/
theorem C18_hidden_only_if_some_condition_matches_witness :
    ((Sample.mkGroup "body" [Sample.emptyCond "breaking" true]
        [Sample.emptyCond "footer" false]).Render Sample.ext Sample.source []).2.hideFunc ()
      = false :=
  (C18_hidden_only_if_some_condition_matches Sample.ext
    (Sample.mkGroup "body" [Sample.emptyCond "breaking" true] [Sample.emptyCond "footer" false])
    Sample.source []).1 (by decide)

end HideProperties

/-! ## The defensive default of `Match` -/

section DefensiveDefault

variable {K F V : Type}

/-- C14: for a condition in which none of the five predicate members is set,
`Match` returns false, whatever map the condition holds and whether or not the
target field is registered in it. -/
theorem C14_match_default_false (x : Externals K F V) (c : Condition K F V)
    (h1 : c.ValueEmpty = none) (h2 : c.ValueEquals = none) (h3 : c.ValueNotEquals = none)
    (h4 : c.ValueContains = none) (h5 : c.ValueNotContains = none) :
    c.Match x = false := by
  simp [Condition.Match, h1, h2, h3, h4, h5]

/-- C14 (witness): a condition with no member set, on the registered field `type`,
does not match. -/
theorem C14_match_default_false_witness :
    ({ Sample.blankCond with fields := Sample.source, ParameterName := "type" } :
        Condition String String String).Match Sample.ext = false :=
  C14_match_default_false Sample.ext
    { Sample.blankCond with fields := Sample.source, ParameterName := "type" }
    rfl rfl rfl rfl rfl

/-- C15: after validation passes, `Match` does not reach its closing `return
false`: for a condition whose `Validate` returns no errors, at least one predicate
member is set and `Match` returns at the statement of exactly one member, with the
result of that member's predicate method; and for a group whose `Validate` returns
no errors this holds for every condition of both buckets. -/
theorem C15_default_unreachable_after_validation (x : Externals K F V) :
    (∀ c : Condition K F V, c.Validate = [] →
      c.hasPredicate = true ∧
        ∃ s, c.matchReturn = some s ∧ c.Match x = c.predicate x s) ∧
    (∀ g : Group K F V, g.Validate = [] →
      ∀ c ∈ g.DependsOn.OrConditions ++ g.DependsOn.AndConditions,
        c.hasPredicate = true ∧
          ∃ s, c.matchReturn = some s ∧ c.Match x = c.predicate x s) := by
  have hc : ∀ c : Condition K F V, c.Validate = [] →
      c.hasPredicate = true ∧
        ∃ s, c.matchReturn = some s ∧ c.Match x = c.predicate x s := by
    intro c hv
    have hp := hasPredicate_of_Validate_nil c hv
    refine ⟨hp, ?_⟩
    have hs : c.matchReturn.isSome = true := by rw [matchReturn_isSome, hp]
    cases hr : c.matchReturn with
    | none => rw [hr] at hs; exact absurd hs (by decide)
    | some s =>
      refine ⟨s, rfl, ?_⟩
      rw [Match_eq_matchReturn, hr]
  refine ⟨hc, ?_⟩
  intro g hg c hmem
  exact hc c (Condition_Validate_nil_of_Group g hg c hmem)

/-- C15 (instance): a valid condition with `value_equals` and `value_contains` set
returns at the `value_equals` statement. -/
theorem C15_default_unreachable_after_validation_witness :
    ∃ s, Condition.matchReturn
            { Sample.blankCond with fields := Sample.source, ParameterName := "type",
                                    ValueEquals := some "feat", ValueContains := some "ea" }
          = some s ∧
      Condition.Match Sample.ext
            { Sample.blankCond with fields := Sample.source, ParameterName := "type",
                                    ValueEquals := some "feat", ValueContains := some "ea" }
        = Condition.predicate Sample.ext
            { Sample.blankCond with fields := Sample.source, ParameterName := "type",
                                    ValueEquals := some "feat", ValueContains := some "ea" } s :=
  ((C15_default_unreachable_after_validation Sample.ext).1
    { Sample.blankCond with fields := Sample.source, ParameterName := "type",
                            ValueEquals := some "feat", ValueContains := some "ea" }
    (by decide)).2

end DefensiveDefault

/-! ## The map handed to `Render` -/

section RenderMap

variable {K F V : Type}

/-- C16: for a group whose conditions carry no map before the call, the result of
the hide function installed by `Group.Render` does not depend on the map handed to
`Render`: for any two maps and the same fields the two hide functions return the
same boolean, and after either call the stored conditions still carry no map. -/
theorem C16_hide_independent_of_render_map (x : Externals K F V) (g : Group K F V)
    (all1 all2 : FieldMap K F) (fields : List (HuhField F))
    (hnil : ∀ c ∈ g.DependsOn.OrConditions ++ g.DependsOn.AndConditions, c.fields = none) :
    (g.Render x all1 fields).2.hideFunc () = (g.Render x all2 fields).2.hideFunc () ∧
    (∀ c ∈ (g.Render x all1 fields).1.DependsOn.OrConditions ++
        (g.Render x all1 fields).1.DependsOn.AndConditions, c.fields = none) ∧
    (∀ c ∈ (g.Render x all2 fields).1.DependsOn.OrConditions ++
        (g.Render x all2 fields).1.DependsOn.AndConditions, c.fields = none) := by
  refine ⟨?_, ?_, ?_⟩
  · rw [Render_hideFunc, Render_hideFunc]
  · rw [Render_group]
    exact hnil
  · rw [Render_group]
    exact hnil

/-- C16 (witness): the same group rendered with the sample map and with the nil
map. -/
theorem C16_hide_independent_of_render_map_witness :
    ((Sample.mkGroup "body" [Sample.emptyCond "scope" true]
        [Sample.emptyCond "type" false]).Render Sample.ext Sample.source []).2.hideFunc ()
      = ((Sample.mkGroup "body" [Sample.emptyCond "scope" true]
        [Sample.emptyCond "type" false]).Render Sample.ext none []).2.hideFunc () :=
  (C16_hide_independent_of_render_map Sample.ext
    (Sample.mkGroup "body" [Sample.emptyCond "scope" true] [Sample.emptyCond "type" false])
    Sample.source none []
    (by
      intro c hc
      simp only [Sample.mkGroup, List.cons_append, List.nil_append, List.mem_cons,
        List.mem_singleton, List.not_mem_nil, or_false] at hc
      rcases hc with rfl | rfl <;> rfl)).1

end RenderMap

end Commitizen
